import Mathlib

/-!
Verification of the `cozmo_driver` keyboard teleoperation node
(`src/nodes/teleop_key.py`), shallowly embedded in Lean 4.

The node keeps two persistent actuator values (`head_angle`, `lift_height`),
reads one key per tick, dispatches it through an `elif` chain that updates
and clamps the state, and publishes a velocity command every tick plus the
head/lift values on the ticks where they changed.  All numeric values the
program can produce are exact rationals (multiples of 0.5, and the lift
normalisation divides by 60), so the float state is modelled with `ℚ`.

`get_key` returns one character, or nothing when stdin is at end of input;
the per-tick key is therefore an `Option Char`.
-/

namespace CozmoTeleop

/-! ### Constants, as in `teleop_key.py` lines 46-57 -/

def MIN_HEAD_ANGLE : ℚ := -25.0
def MAX_HEAD_ANGLE : ℚ := 44.5
def STD_HEAD_ANGLE : ℚ := 20.0
def SUM_HEAD_ANGLE : ℚ := MAX_HEAD_ANGLE - MIN_HEAD_ANGLE

def MIN_LIFT_HEIGHT : ℚ := 32.0
def MAX_LIFT_HEIGHT : ℚ := 92.0
def STD_LIFT_HEIGHT : ℚ := 32.0
def SUM_LIFT_HEIGHT : ℚ := MAX_LIFT_HEIGHT - MIN_LIFT_HEIGHT

def HEAD_ADJUSTMENT_RATE : ℚ := 2.0
def LIFT_ADJUSTMENT_RATE : ℚ := 2.0

/-! ### Data model -/

/-- The two fields of the `geometry_msgs/Twist` message the node ever sets
(`cmd_vel.linear.x` and `cmd_vel.angular.z`); a fresh `Twist()` starts both
at zero. -/
structure Twist where
  linear_x : ℚ := 0
  angular_z : ℚ := 0
deriving DecidableEq, Repr

/-- The startup parameters `~lin_vel` and `~ang_vel`. -/
structure Config where
  lin_vel : ℚ
  ang_vel : ℚ
deriving DecidableEq, Repr

/-- The mutable per-process state of `CozmoTeleop`: `self.head_angle` and
`self.lift_height`. -/
structure State where
  head_angle : ℚ
  lift_height : ℚ
deriving DecidableEq, Repr

/-- `__init__` sets `head_angle = STD_HEAD_ANGLE`, `lift_height = STD_LIFT_HEIGHT`. -/
def initState : State where
  head_angle := STD_HEAD_ANGLE
  lift_height := STD_LIFT_HEIGHT

/-- Default parameter values: `rospy.get_param` falls back to 0.2 and 1.5757. -/
def defaultConfig : Config where
  lin_vel := 0.2
  ang_vel := 1.5757

/-- What the dispatch section of one loop iteration leaves behind: the
`cmd_vel` message, the updated state, and the two `*_changed` flags. -/
structure DispatchResult where
  cmd_vel : Twist
  state : State
  head_changed : Bool
  lift_changed : Bool
deriving DecidableEq, Repr

/-- What one non-Ctrl-C tick publishes: `cmd_vel` unconditionally, the head
angle when `head_changed`, the normalised lift height when `lift_changed`. -/
structure TickOutput where
  cmd_vel : Twist
  head_pub : Option ℚ
  lift_pub : Option ℚ
deriving DecidableEq, Repr

/-! ### The loop body -/

/-- The `elif` chain of `CozmoTeleop.run` (lines 139-187): keys `w s a d`
set one `cmd_vel` field, `r f v` move the head (with clamping), `t g b`
move the lift (with clamping); any other key - or no key - does nothing. -/
def dispatch (cfg : Config) (s : State) (key : Option Char) : DispatchResult :=
  if key = some 'w' then
    ⟨{ linear_x := cfg.lin_vel }, s, false, false⟩
  else if key = some 's' then
    ⟨{ linear_x := -cfg.lin_vel }, s, false, false⟩
  else if key = some 'a' then
    ⟨{ angular_z := cfg.ang_vel }, s, false, false⟩
  else if key = some 'd' then
    ⟨{ angular_z := -cfg.ang_vel }, s, false, false⟩
  else if key = some 'r' then
    ⟨{}, { s with head_angle :=
      if s.head_angle + HEAD_ADJUSTMENT_RATE > MAX_HEAD_ANGLE then MAX_HEAD_ANGLE
      else s.head_angle + HEAD_ADJUSTMENT_RATE }, true, false⟩
  else if key = some 'f' then
    ⟨{}, { s with head_angle := STD_HEAD_ANGLE }, true, false⟩
  else if key = some 'v' then
    ⟨{}, { s with head_angle :=
      if s.head_angle - HEAD_ADJUSTMENT_RATE < MIN_HEAD_ANGLE then MIN_HEAD_ANGLE
      else s.head_angle - HEAD_ADJUSTMENT_RATE }, true, false⟩
  else if key = some 't' then
    ⟨{}, { s with lift_height :=
      if s.lift_height + LIFT_ADJUSTMENT_RATE > MAX_LIFT_HEIGHT then MAX_LIFT_HEIGHT
      else s.lift_height + LIFT_ADJUSTMENT_RATE }, false, true⟩
  else if key = some 'g' then
    ⟨{}, { s with lift_height := STD_LIFT_HEIGHT }, false, true⟩
  else if key = some 'b' then
    ⟨{}, { s with lift_height :=
      if s.lift_height - LIFT_ADJUSTMENT_RATE < MIN_LIFT_HEIGHT then MIN_LIFT_HEIGHT
      else s.lift_height - LIFT_ADJUSTMENT_RATE }, false, true⟩
  else
    ⟨{}, s, false, false⟩

/-- The publish section of one iteration (lines 189-194): `cmd_vel` always;
`head_angle` raw when changed; `(lift_height - MIN_LIFT_HEIGHT) / SUM_LIFT_HEIGHT`
when the lift changed. -/
def publishStep (d : DispatchResult) : TickOutput where
  cmd_vel := d.cmd_vel
  head_pub := if d.head_changed then some d.state.head_angle else none
  lift_pub :=
    if d.lift_changed then
      some ((d.state.lift_height - MIN_LIFT_HEIGHT) / SUM_LIFT_HEIGHT)
    else none

/-- One iteration of the `while` loop in `CozmoTeleop.run`: reset `cmd_vel`
and the changed flags, read `key`, `break` on the Ctrl-C byte `'\x03'`
(no dispatch, no publish), otherwise dispatch and publish.  `none` is the
`break`. -/
def tick (cfg : Config) (s : State) (key : Option Char) : Option (State × TickOutput) :=
  if key = some '\x03' then
    none
  else
    let d := dispatch cfg s key
    some (d.state, publishStep d)

/-- The whole loop over a finite sequence of per-tick key reads: final state
together with the outputs of every executed tick, stopping at Ctrl-C. -/
def run (cfg : Config) (s : State) : List (Option Char) → State × List TickOutput
  | [] => (s, [])
  | key :: keys =>
    match tick cfg s key with
    | none => (s, [])
    | some (s', out) =>
      let rest := run cfg s' keys
      (rest.1, out :: rest.2)

/-- The states after each executed tick (the reachable states, the initial
one excluded). -/
def statesOf (cfg : Config) (s : State) : List (Option Char) → List State
  | [] => []
  | key :: keys =>
    match tick cfg s key with
    | none => []
    | some (s', _) => s' :: statesOf cfg s' keys

/-- The ten recognized action keys. -/
def recognizedKeys : List (Option Char) :=
  [some 'w', some 's', some 'a', some 'd', some 'r', some 'f', some 'v',
   some 't', some 'g', some 'b']

/-- The head angle stays within its physical limits. -/
def headInv (s : State) : Prop :=
  MIN_HEAD_ANGLE ≤ s.head_angle ∧ s.head_angle ≤ MAX_HEAD_ANGLE

/-- The lift height stays within its physical limits. -/
def liftInv (s : State) : Prop :=
  MIN_LIFT_HEIGHT ≤ s.lift_height ∧ s.lift_height ≤ MAX_LIFT_HEIGHT

/-- The lift height sits on the 2.0-step grid above its minimum. -/
def liftGrid (s : State) : Prop :=
  ∃ k : ℕ, k ≤ 30 ∧ s.lift_height = MIN_LIFT_HEIGHT + 2 * k

/-! ### Helper lemmas -/

lemma tick_eq_some (cfg : Config) (s : State) (key : Option Char)
    (h : key ≠ some '\x03') :
    tick cfg s key =
      some ((dispatch cfg s key).state, publishStep (dispatch cfg s key)) := by
  simp [tick, h]

lemma tick_elim (cfg : Config) (s : State) (key : Option Char)
    (p : State × TickOutput) (h : tick cfg s key = some p) :
    p.1 = (dispatch cfg s key).state ∧ p.2 = publishStep (dispatch cfg s key) := by
  by_cases hk : key = some '\x03'
  · simp [tick, hk] at h
  · rw [tick_eq_some cfg s key hk] at h
    obtain rfl := Option.some_injective _ h.symm
    exact ⟨rfl, rfl⟩

lemma dispatch_w (cfg : Config) (s : State) :
    dispatch cfg s (some 'w') = ⟨{ linear_x := cfg.lin_vel }, s, false, false⟩ := rfl

lemma dispatch_s (cfg : Config) (s : State) :
    dispatch cfg s (some 's') = ⟨{ linear_x := -cfg.lin_vel }, s, false, false⟩ := rfl

lemma dispatch_a (cfg : Config) (s : State) :
    dispatch cfg s (some 'a') = ⟨{ angular_z := cfg.ang_vel }, s, false, false⟩ := rfl

lemma dispatch_d (cfg : Config) (s : State) :
    dispatch cfg s (some 'd') = ⟨{ angular_z := -cfg.ang_vel }, s, false, false⟩ := rfl

lemma dispatch_r (cfg : Config) (s : State) :
    dispatch cfg s (some 'r') = ⟨{}, { s with head_angle :=
      if s.head_angle + HEAD_ADJUSTMENT_RATE > MAX_HEAD_ANGLE then MAX_HEAD_ANGLE
      else s.head_angle + HEAD_ADJUSTMENT_RATE }, true, false⟩ := rfl

lemma dispatch_f (cfg : Config) (s : State) :
    dispatch cfg s (some 'f') =
      ⟨{}, { s with head_angle := STD_HEAD_ANGLE }, true, false⟩ := rfl

lemma dispatch_v (cfg : Config) (s : State) :
    dispatch cfg s (some 'v') = ⟨{}, { s with head_angle :=
      if s.head_angle - HEAD_ADJUSTMENT_RATE < MIN_HEAD_ANGLE then MIN_HEAD_ANGLE
      else s.head_angle - HEAD_ADJUSTMENT_RATE }, true, false⟩ := rfl

lemma dispatch_t (cfg : Config) (s : State) :
    dispatch cfg s (some 't') = ⟨{}, { s with lift_height :=
      if s.lift_height + LIFT_ADJUSTMENT_RATE > MAX_LIFT_HEIGHT then MAX_LIFT_HEIGHT
      else s.lift_height + LIFT_ADJUSTMENT_RATE }, false, true⟩ := rfl

lemma dispatch_g (cfg : Config) (s : State) :
    dispatch cfg s (some 'g') =
      ⟨{}, { s with lift_height := STD_LIFT_HEIGHT }, false, true⟩ := rfl

lemma dispatch_b (cfg : Config) (s : State) :
    dispatch cfg s (some 'b') = ⟨{}, { s with lift_height :=
      if s.lift_height - LIFT_ADJUSTMENT_RATE < MIN_LIFT_HEIGHT then MIN_LIFT_HEIGHT
      else s.lift_height - LIFT_ADJUSTMENT_RATE }, false, true⟩ := rfl

lemma dispatch_other (cfg : Config) (s : State) (key : Option Char)
    (h : key ∉ recognizedKeys) : dispatch cfg s key = ⟨{}, s, false, false⟩ := by
  simp only [recognizedKeys, List.mem_cons, List.not_mem_nil, or_false, not_or] at h
  obtain ⟨h1, h2, h3, h4, h5, h6, h7, h8, h9, h10⟩ := h
  unfold dispatch
  rw [if_neg h1, if_neg h2, if_neg h3, if_neg h4, if_neg h5, if_neg h6,
      if_neg h7, if_neg h8, if_neg h9, if_neg h10]

/-- Exhaustive case analysis of the `elif` dispatch chain. -/
lemma dispatch_cases (cfg : Config) (s : State) (key : Option Char) :
    (key = some 'w' ∧ dispatch cfg s key = ⟨{ linear_x := cfg.lin_vel }, s, false, false⟩) ∨
    (key = some 's' ∧ dispatch cfg s key = ⟨{ linear_x := -cfg.lin_vel }, s, false, false⟩) ∨
    (key = some 'a' ∧ dispatch cfg s key = ⟨{ angular_z := cfg.ang_vel }, s, false, false⟩) ∨
    (key = some 'd' ∧ dispatch cfg s key = ⟨{ angular_z := -cfg.ang_vel }, s, false, false⟩) ∨
    (key = some 'r' ∧ dispatch cfg s key = ⟨{}, { s with head_angle :=
      if s.head_angle + HEAD_ADJUSTMENT_RATE > MAX_HEAD_ANGLE then MAX_HEAD_ANGLE
      else s.head_angle + HEAD_ADJUSTMENT_RATE }, true, false⟩) ∨
    (key = some 'f' ∧ dispatch cfg s key =
      ⟨{}, { s with head_angle := STD_HEAD_ANGLE }, true, false⟩) ∨
    (key = some 'v' ∧ dispatch cfg s key = ⟨{}, { s with head_angle :=
      if s.head_angle - HEAD_ADJUSTMENT_RATE < MIN_HEAD_ANGLE then MIN_HEAD_ANGLE
      else s.head_angle - HEAD_ADJUSTMENT_RATE }, true, false⟩) ∨
    (key = some 't' ∧ dispatch cfg s key = ⟨{}, { s with lift_height :=
      if s.lift_height + LIFT_ADJUSTMENT_RATE > MAX_LIFT_HEIGHT then MAX_LIFT_HEIGHT
      else s.lift_height + LIFT_ADJUSTMENT_RATE }, false, true⟩) ∨
    (key = some 'g' ∧ dispatch cfg s key =
      ⟨{}, { s with lift_height := STD_LIFT_HEIGHT }, false, true⟩) ∨
    (key = some 'b' ∧ dispatch cfg s key = ⟨{}, { s with lift_height :=
      if s.lift_height - LIFT_ADJUSTMENT_RATE < MIN_LIFT_HEIGHT then MIN_LIFT_HEIGHT
      else s.lift_height - LIFT_ADJUSTMENT_RATE }, false, true⟩) ∨
    (key ∉ recognizedKeys ∧ dispatch cfg s key = ⟨{}, s, false, false⟩) := by
  by_cases h1 : key = some 'w'
  · subst h1; exact Or.inl ⟨rfl, dispatch_w cfg s⟩
  by_cases h2 : key = some 's'
  · subst h2; exact Or.inr (Or.inl ⟨rfl, dispatch_s cfg s⟩)
  by_cases h3 : key = some 'a'
  · subst h3; exact Or.inr (Or.inr (Or.inl ⟨rfl, dispatch_a cfg s⟩))
  by_cases h4 : key = some 'd'
  · subst h4; exact Or.inr (Or.inr (Or.inr (Or.inl ⟨rfl, dispatch_d cfg s⟩)))
  by_cases h5 : key = some 'r'
  · subst h5
    exact Or.inr (Or.inr (Or.inr (Or.inr (Or.inl ⟨rfl, dispatch_r cfg s⟩))))
  by_cases h6 : key = some 'f'
  · subst h6
    exact Or.inr (Or.inr (Or.inr (Or.inr (Or.inr (Or.inl ⟨rfl, dispatch_f cfg s⟩)))))
  by_cases h7 : key = some 'v'
  · subst h7
    exact Or.inr (Or.inr (Or.inr (Or.inr (Or.inr (Or.inr
      (Or.inl ⟨rfl, dispatch_v cfg s⟩))))))
  by_cases h8 : key = some 't'
  · subst h8
    exact Or.inr (Or.inr (Or.inr (Or.inr (Or.inr (Or.inr (Or.inr
      (Or.inl ⟨rfl, dispatch_t cfg s⟩)))))))
  by_cases h9 : key = some 'g'
  · subst h9
    exact Or.inr (Or.inr (Or.inr (Or.inr (Or.inr (Or.inr (Or.inr (Or.inr
      (Or.inl ⟨rfl, dispatch_g cfg s⟩))))))))
  by_cases h10 : key = some 'b'
  · subst h10
    exact Or.inr (Or.inr (Or.inr (Or.inr (Or.inr (Or.inr (Or.inr (Or.inr (Or.inr
      (Or.inl ⟨rfl, dispatch_b cfg s⟩)))))))))
  have hmem : key ∉ recognizedKeys := by
    simp [recognizedKeys, h1, h2, h3, h4, h5, h6, h7, h8, h9, h10]
  exact Or.inr (Or.inr (Or.inr (Or.inr (Or.inr (Or.inr (Or.inr (Or.inr (Or.inr
    (Or.inr ⟨hmem, dispatch_other cfg s key hmem⟩)))))))))

lemma headInv_dispatch (cfg : Config) (s : State) (key : Option Char)
    (h : headInv s) : headInv (dispatch cfg s key).state := by
  rcases dispatch_cases cfg s key with
    ⟨-, hd⟩ | ⟨-, hd⟩ | ⟨-, hd⟩ | ⟨-, hd⟩ | ⟨-, hd⟩ | ⟨-, hd⟩ | ⟨-, hd⟩ |
    ⟨-, hd⟩ | ⟨-, hd⟩ | ⟨-, hd⟩ | ⟨-, hd⟩
  · rw [hd]; exact h
  · rw [hd]; exact h
  · rw [hd]; exact h
  · rw [hd]; exact h
  · rw [hd]
    unfold headInv at h ⊢
    unfold MIN_HEAD_ANGLE MAX_HEAD_ANGLE at h ⊢
    unfold HEAD_ADJUSTMENT_RATE
    dsimp only
    split_ifs <;> constructor <;> linarith
  · rw [hd]
    unfold headInv
    unfold MIN_HEAD_ANGLE MAX_HEAD_ANGLE STD_HEAD_ANGLE
    dsimp only
    constructor <;> norm_num
  · rw [hd]
    unfold headInv at h ⊢
    unfold MIN_HEAD_ANGLE MAX_HEAD_ANGLE at h ⊢
    unfold HEAD_ADJUSTMENT_RATE
    dsimp only
    split_ifs <;> constructor <;> linarith
  · rw [hd]; exact h
  · rw [hd]; exact h
  · rw [hd]; exact h
  · rw [hd]; exact h

lemma liftInv_dispatch (cfg : Config) (s : State) (key : Option Char)
    (h : liftInv s) : liftInv (dispatch cfg s key).state := by
  rcases dispatch_cases cfg s key with
    ⟨-, hd⟩ | ⟨-, hd⟩ | ⟨-, hd⟩ | ⟨-, hd⟩ | ⟨-, hd⟩ | ⟨-, hd⟩ | ⟨-, hd⟩ |
    ⟨-, hd⟩ | ⟨-, hd⟩ | ⟨-, hd⟩ | ⟨-, hd⟩
  · rw [hd]; exact h
  · rw [hd]; exact h
  · rw [hd]; exact h
  · rw [hd]; exact h
  · rw [hd]; exact h
  · rw [hd]; exact h
  · rw [hd]; exact h
  · rw [hd]
    unfold liftInv at h ⊢
    unfold MIN_LIFT_HEIGHT MAX_LIFT_HEIGHT at h ⊢
    unfold LIFT_ADJUSTMENT_RATE
    dsimp only
    split_ifs <;> constructor <;> linarith
  · rw [hd]
    unfold liftInv
    unfold MIN_LIFT_HEIGHT MAX_LIFT_HEIGHT STD_LIFT_HEIGHT
    dsimp only
    constructor <;> norm_num
  · rw [hd]
    unfold liftInv at h ⊢
    unfold MIN_LIFT_HEIGHT MAX_LIFT_HEIGHT at h ⊢
    unfold LIFT_ADJUSTMENT_RATE
    dsimp only
    split_ifs <;> constructor <;> linarith
  · rw [hd]; exact h

lemma liftGrid_dispatch (cfg : Config) (s : State) (key : Option Char)
    (h : liftGrid s) : liftGrid (dispatch cfg s key).state := by
  obtain ⟨k, hk, hs⟩ := h
  rcases dispatch_cases cfg s key with
    ⟨-, hd⟩ | ⟨-, hd⟩ | ⟨-, hd⟩ | ⟨-, hd⟩ | ⟨-, hd⟩ | ⟨-, hd⟩ | ⟨-, hd⟩ |
    ⟨-, hd⟩ | ⟨-, hd⟩ | ⟨-, hd⟩ | ⟨-, hd⟩
  · rw [hd]; exact ⟨k, hk, hs⟩
  · rw [hd]; exact ⟨k, hk, hs⟩
  · rw [hd]; exact ⟨k, hk, hs⟩
  · rw [hd]; exact ⟨k, hk, hs⟩
  · rw [hd]; exact ⟨k, hk, hs⟩
  · rw [hd]; exact ⟨k, hk, hs⟩
  · rw [hd]; exact ⟨k, hk, hs⟩
  · rw [hd]
    unfold liftGrid
    unfold MIN_LIFT_HEIGHT at hs ⊢
    unfold MAX_LIFT_HEIGHT LIFT_ADJUSTMENT_RATE
    dsimp only
    rw [hs]
    split_ifs with hc
    · exact ⟨30, le_refl 30, by norm_num⟩
    · refine ⟨k + 1, ?_, by push_cast; ring⟩
      have hq : (k : ℚ) ≤ 29 := by linarith
      have hn : k ≤ 29 := by exact_mod_cast hq
      omega
  · rw [hd]
    unfold liftGrid MIN_LIFT_HEIGHT STD_LIFT_HEIGHT
    exact ⟨0, by omega, by norm_num⟩
  · rw [hd]
    unfold liftGrid
    unfold MIN_LIFT_HEIGHT at hs ⊢
    unfold LIFT_ADJUSTMENT_RATE
    dsimp only
    rw [hs]
    split_ifs with hc
    · exact ⟨0, by omega, by norm_num⟩
    · have hq : (1 : ℚ) ≤ (k : ℚ) := by linarith
      have hn : 1 ≤ k := by exact_mod_cast hq
      refine ⟨k - 1, by omega, ?_⟩
      rw [Nat.cast_sub hn]
      push_cast
      ring
  · rw [hd]; exact ⟨k, hk, hs⟩

lemma run_stop (cfg : Config) (s : State) (keys : List (Option Char)) :
    run cfg s (some '\x03' :: keys) = (s, []) := by
  simp [run, tick]

lemma run_cons (cfg : Config) (s : State) (key : Option Char)
    (keys : List (Option Char)) (h : key ≠ some '\x03') :
    run cfg s (key :: keys) =
      ((run cfg (dispatch cfg s key).state keys).1,
        publishStep (dispatch cfg s key) ::
          (run cfg (dispatch cfg s key).state keys).2) := by
  simp only [run, tick_eq_some cfg s key h]

lemma statesOf_cons (cfg : Config) (s : State) (key : Option Char)
    (keys : List (Option Char)) (h : key ≠ some '\x03') :
    statesOf cfg s (key :: keys) =
      (dispatch cfg s key).state ::
        statesOf cfg (dispatch cfg s key).state keys := by
  simp only [statesOf, tick_eq_some cfg s key h]

lemma statesOf_inv (P : State → Prop)
    (hP : ∀ (cfg : Config) (s : State) (key : Option Char),
            P s → P (dispatch cfg s key).state)
    (cfg : Config) (keys : List (Option Char)) :
    ∀ s : State, P s → ∀ s' ∈ statesOf cfg s keys, P s' := by
  induction keys with
  | nil => intro s _ s' h'; simp [statesOf] at h'
  | cons key keys ih =>
    intro s hs s' h'
    by_cases hk : key = some '\x03'
    · simp [statesOf, tick, hk] at h'
    · rw [statesOf, tick_eq_some cfg s key hk] at h'
      rcases List.mem_cons.mp h' with h' | h'
      · exact h' ▸ hP cfg s key hs
      · exact ih _ (hP cfg s key hs) s' h'


lemma initState_headInv : headInv initState := by
  unfold headInv initState STD_HEAD_ANGLE MIN_HEAD_ANGLE MAX_HEAD_ANGLE
  constructor <;> norm_num

lemma initState_liftInv : liftInv initState := by
  unfold liftInv initState STD_LIFT_HEIGHT MIN_LIFT_HEIGHT MAX_LIFT_HEIGHT
  constructor <;> norm_num

lemma initState_liftGrid : liftGrid initState := by
  unfold liftGrid initState STD_LIFT_HEIGHT MIN_LIFT_HEIGHT
  exact ⟨0, by omega, by norm_num⟩

/-! ### Claims -/

/-- C1: starting from the initial head angle 20.0, along every sequence of
per-tick keys the head angle stays in the closed interval [-25.0, 44.5];
moreover `r` adds 2.0 truncated at 44.5 from above, `v` subtracts 2.0
truncated at -25.0 from below, `f` sets it to 20.0, and no other key
changes it. -/
theorem claim_C1 :
    (∀ (cfg : Config) (keys : List (Option Char)),
      ∀ s ∈ initState :: statesOf cfg initState keys,
        MIN_HEAD_ANGLE ≤ s.head_angle ∧ s.head_angle ≤ MAX_HEAD_ANGLE) ∧
    (∀ (cfg : Config) (s : State),
      (dispatch cfg s (some 'r')).state.head_angle =
        min (s.head_angle + 2.0) MAX_HEAD_ANGLE ∧
      (dispatch cfg s (some 'v')).state.head_angle =
        max (s.head_angle - 2.0) MIN_HEAD_ANGLE ∧
      (dispatch cfg s (some 'f')).state.head_angle = 20.0) ∧
    (∀ (cfg : Config) (s : State) (key : Option Char),
      key ∉ ([some 'r', some 'v', some 'f'] : List (Option Char)) →
        (dispatch cfg s key).state.head_angle = s.head_angle) := by
  refine ⟨?_, ?_, ?_⟩
  · intro cfg keys s hs
    rcases List.mem_cons.mp hs with rfl | hs
    · exact initState_headInv
    · exact statesOf_inv headInv headInv_dispatch cfg keys initState
        initState_headInv s hs
  · intro cfg s
    refine ⟨?_, ?_, ?_⟩
    · rw [dispatch_r cfg s]
      dsimp only
      unfold HEAD_ADJUSTMENT_RATE
      split_ifs with hc
      · exact (min_eq_right hc.le).symm
      · exact (min_eq_left (not_lt.mp hc)).symm
    · rw [dispatch_v cfg s]
      dsimp only
      unfold HEAD_ADJUSTMENT_RATE
      split_ifs with hc
      · exact (max_eq_right hc.le).symm
      · exact (max_eq_left (not_lt.mp hc)).symm
    · rfl
  · intro cfg s key h
    rcases dispatch_cases cfg s key with
      ⟨hk, hd⟩ | ⟨hk, hd⟩ | ⟨hk, hd⟩ | ⟨hk, hd⟩ | ⟨hk, hd⟩ | ⟨hk, hd⟩ |
      ⟨hk, hd⟩ | ⟨hk, hd⟩ | ⟨hk, hd⟩ | ⟨hk, hd⟩ | ⟨hk, hd⟩
    · rw [hd]
    · rw [hd]
    · rw [hd]
    · rw [hd]
    · subst hk; simp at h
    · subst hk; simp at h
    · subst hk; simp at h
    · rw [hd]
    · rw [hd]
    · rw [hd]
    · rw [hd]

/-- C1 witness: after one `r` tick from the initial state the head angle is
22.0, a value inside the invariant interval, and an unrecognized key such as
`x` leaves the head angle of the initial state unchanged. -/
theorem claim_C1_witness :
    (MIN_HEAD_ANGLE ≤ ({ head_angle := 22.0, lift_height := 32.0 } : State).head_angle ∧
      ({ head_angle := 22.0, lift_height := 32.0 } : State).head_angle ≤ MAX_HEAD_ANGLE) ∧
    (dispatch defaultConfig initState (some 'x')).state.head_angle =
      initState.head_angle :=
  ⟨claim_C1.1 defaultConfig [some 'r']
      { head_angle := 22.0, lift_height := 32.0 }
      (by
        rw [statesOf_cons defaultConfig initState (some 'r') [] (by decide),
          dispatch_r]
        norm_num [initState, statesOf, STD_HEAD_ANGLE, STD_LIFT_HEIGHT,
          HEAD_ADJUSTMENT_RATE, MAX_HEAD_ANGLE, List.mem_cons]),
    claim_C1.2.2 defaultConfig initState (some 'x') (by decide)⟩

/-- C2: starting from the initial lift height 32.0, along every sequence of
per-tick keys the lift height stays in the closed interval [32.0, 92.0];
moreover `t` adds 2.0 truncated at 92.0 from above, `b` subtracts 2.0
truncated at 32.0 from below, `g` sets it to 32.0, and no other key
changes it. -/
theorem claim_C2 :
    (∀ (cfg : Config) (keys : List (Option Char)),
      ∀ s ∈ initState :: statesOf cfg initState keys,
        MIN_LIFT_HEIGHT ≤ s.lift_height ∧ s.lift_height ≤ MAX_LIFT_HEIGHT) ∧
    (∀ (cfg : Config) (s : State),
      (dispatch cfg s (some 't')).state.lift_height =
        min (s.lift_height + 2.0) MAX_LIFT_HEIGHT ∧
      (dispatch cfg s (some 'b')).state.lift_height =
        max (s.lift_height - 2.0) MIN_LIFT_HEIGHT ∧
      (dispatch cfg s (some 'g')).state.lift_height = 32.0) ∧
    (∀ (cfg : Config) (s : State) (key : Option Char),
      key ∉ ([some 't', some 'b', some 'g'] : List (Option Char)) →
        (dispatch cfg s key).state.lift_height = s.lift_height) := by
  refine ⟨?_, ?_, ?_⟩
  · intro cfg keys s hs
    rcases List.mem_cons.mp hs with rfl | hs
    · exact initState_liftInv
    · exact statesOf_inv liftInv liftInv_dispatch cfg keys initState
        initState_liftInv s hs
  · intro cfg s
    refine ⟨?_, ?_, ?_⟩
    · rw [dispatch_t cfg s]
      dsimp only
      unfold LIFT_ADJUSTMENT_RATE
      split_ifs with hc
      · exact (min_eq_right hc.le).symm
      · exact (min_eq_left (not_lt.mp hc)).symm
    · rw [dispatch_b cfg s]
      dsimp only
      unfold LIFT_ADJUSTMENT_RATE
      split_ifs with hc
      · exact (max_eq_right hc.le).symm
      · exact (max_eq_left (not_lt.mp hc)).symm
    · rfl
  · intro cfg s key h
    rcases dispatch_cases cfg s key with
      ⟨hk, hd⟩ | ⟨hk, hd⟩ | ⟨hk, hd⟩ | ⟨hk, hd⟩ | ⟨hk, hd⟩ | ⟨hk, hd⟩ |
      ⟨hk, hd⟩ | ⟨hk, hd⟩ | ⟨hk, hd⟩ | ⟨hk, hd⟩ | ⟨hk, hd⟩
    · rw [hd]
    · rw [hd]
    · rw [hd]
    · rw [hd]
    · rw [hd]
    · rw [hd]
    · rw [hd]
    · subst hk; simp at h
    · subst hk; simp at h
    · subst hk; simp at h
    · rw [hd]

/-- C2 witness: after one `t` tick from the initial state the lift height is
34.0, a value inside the invariant interval, and an unrecognized key such as
`x` leaves the lift height of the initial state unchanged. -/
theorem claim_C2_witness :
    (MIN_LIFT_HEIGHT ≤ ({ head_angle := 20.0, lift_height := 34.0 } : State).lift_height ∧
      ({ head_angle := 20.0, lift_height := 34.0 } : State).lift_height ≤ MAX_LIFT_HEIGHT) ∧
    (dispatch defaultConfig initState (some 'x')).state.lift_height =
      initState.lift_height :=
  ⟨claim_C2.1 defaultConfig [some 't']
      { head_angle := 20.0, lift_height := 34.0 }
      (by
        rw [statesOf_cons defaultConfig initState (some 't') [] (by decide),
          dispatch_t]
        norm_num [initState, statesOf, STD_HEAD_ANGLE, STD_LIFT_HEIGHT,
          LIFT_ADJUSTMENT_RATE, MAX_LIFT_HEIGHT, List.mem_cons]),
    claim_C2.2.2 defaultConfig initState (some 'x') (by decide)⟩

/-- C3: every non-Ctrl-C tick publishes exactly one `cmd_vel` record whose
fields are freshly reset; at most one of its two fields is non-zero
(`+lin_vel` for `w`, `-lin_vel` for `s`, `+ang_vel` for `a`, `-ang_vel` for
`d`, both zero otherwise), and pressing `w` then `a` on consecutive ticks
publishes (lin_vel, 0) then (0, ang_vel): velocity does not persist. -/
theorem claim_C3 :
    (∀ (cfg : Config) (s : State) (key : Option Char),
      key ≠ some '\x03' →
        ∃ s' out, tick cfg s key = some (s', out) ∧
          (out.cmd_vel.linear_x = 0 ∨ out.cmd_vel.angular_z = 0) ∧
          (key = some 'w' →
            out.cmd_vel = { linear_x := cfg.lin_vel, angular_z := 0 }) ∧
          (key = some 's' →
            out.cmd_vel = { linear_x := -cfg.lin_vel, angular_z := 0 }) ∧
          (key = some 'a' →
            out.cmd_vel = { linear_x := 0, angular_z := cfg.ang_vel }) ∧
          (key = some 'd' →
            out.cmd_vel = { linear_x := 0, angular_z := -cfg.ang_vel }) ∧
          (key ∉ ([some 'w', some 's', some 'a', some 'd'] : List (Option Char)) →
            out.cmd_vel = { linear_x := 0, angular_z := 0 })) ∧
    (∀ (cfg : Config) (s : State),
      (run cfg s [some 'w', some 'a']).2.map TickOutput.cmd_vel =
        [{ linear_x := cfg.lin_vel, angular_z := 0 },
         { linear_x := 0, angular_z := cfg.ang_vel }]) := by
  constructor
  · intro cfg s key h
    refine ⟨(dispatch cfg s key).state, publishStep (dispatch cfg s key),
      tick_eq_some cfg s key h, ?_⟩
    rcases dispatch_cases cfg s key with
      ⟨hk, hd⟩ | ⟨hk, hd⟩ | ⟨hk, hd⟩ | ⟨hk, hd⟩ | ⟨hk, hd⟩ | ⟨hk, hd⟩ |
      ⟨hk, hd⟩ | ⟨hk, hd⟩ | ⟨hk, hd⟩ | ⟨hk, hd⟩ | ⟨hk, hd⟩
    · subst hk; rw [hd]; simp [publishStep]
    · subst hk; rw [hd]; simp [publishStep]
    · subst hk; rw [hd]; simp [publishStep]
    · subst hk; rw [hd]; simp [publishStep]
    · subst hk; rw [hd]; simp [publishStep]
    · subst hk; rw [hd]; simp [publishStep]
    · subst hk; rw [hd]; simp [publishStep]
    · subst hk; rw [hd]; simp [publishStep]
    · subst hk; rw [hd]; simp [publishStep]
    · subst hk; rw [hd]; simp [publishStep]
    · rw [hd]
      refine ⟨Or.inl rfl, ?_, ?_, ?_, ?_, fun _ => rfl⟩ <;>
        · intro heq
          subst heq
          simp [recognizedKeys] at hk
  · intro cfg s
    simp [run, tick, dispatch_w, dispatch_a, publishStep]

/-- C3 witness: a `w` tick from the initial state yields a `cmd_vel` with
angular component zero and linear component `lin_vel`. -/
theorem claim_C3_witness :
    ∃ s' out, tick defaultConfig initState (some 'w') = some (s', out) ∧
      (out.cmd_vel.linear_x = 0 ∨ out.cmd_vel.angular_z = 0) ∧
      (some 'w' = some 'w' →
        out.cmd_vel = { linear_x := defaultConfig.lin_vel, angular_z := 0 }) ∧
      (some 'w' = some 's' →
        out.cmd_vel = { linear_x := -defaultConfig.lin_vel, angular_z := 0 }) ∧
      (some 'w' = some 'a' →
        out.cmd_vel = { linear_x := 0, angular_z := defaultConfig.ang_vel }) ∧
      (some 'w' = some 'd' →
        out.cmd_vel = { linear_x := 0, angular_z := -defaultConfig.ang_vel }) ∧
      ((some 'w' : Option Char) ∉
          ([some 'w', some 's', some 'a', some 'd'] : List (Option Char)) →
        out.cmd_vel = { linear_x := 0, angular_z := 0 }) :=
  claim_C3.1 defaultConfig initState (some 'w') (by decide)

/-- C4: whenever a tick publishes on the lift channel, the published value
is exactly `(lift_height - 32.0) / 60.0` of the post-dispatch state, and if
the incoming state satisfies the lift invariant this value lies in
[0.0, 1.0]; the head channel publishes the raw post-dispatch angle. -/
theorem claim_C4 (cfg : Config) (s : State) (key : Option Char) (s' : State)
    (out : TickOutput) (h : tick cfg s key = some (s', out)) :
    (∀ v, out.lift_pub = some v →
      v = (s'.lift_height - 32.0) / 60.0 ∧
      (MIN_LIFT_HEIGHT ≤ s.lift_height ∧ s.lift_height ≤ MAX_LIFT_HEIGHT →
        0 ≤ v ∧ v ≤ 1)) ∧
    (∀ v, out.head_pub = some v → v = s'.head_angle) := by
  obtain ⟨h1, h2⟩ := tick_elim cfg s key (s', out) h
  dsimp only at h1 h2
  subst h1
  subst h2
  constructor
  · intro v hv
    unfold publishStep at hv
    dsimp only at hv
    rcases hb : (dispatch cfg s key).lift_changed with _ | _
    · rw [hb] at hv
      simp at hv
    · rw [hb] at hv
      simp only [if_true] at hv
      obtain rfl := Option.some_injective _ hv
      constructor
      · simp only [SUM_LIFT_HEIGHT, MIN_LIFT_HEIGHT, MAX_LIFT_HEIGHT]
        norm_num
      · intro hinv
        obtain ⟨ha, hb'⟩ := liftInv_dispatch cfg s key hinv
        simp only [liftInv, SUM_LIFT_HEIGHT, MIN_LIFT_HEIGHT, MAX_LIFT_HEIGHT]
          at ha hb' ⊢
        constructor
        · apply div_nonneg (by linarith) (by norm_num)
        · rw [div_le_one (by norm_num)]
          linarith
  · intro v hv
    unfold publishStep at hv
    dsimp only at hv
    rcases hb : (dispatch cfg s key).head_changed with _ | _
    · rw [hb] at hv
      simp at hv
    · rw [hb] at hv
      simp only [if_true] at hv
      exact (Option.some_injective _ hv).symm

/-- C4 witness: the `t` tick from the initial state publishes the lift value
1/30, which equals (34.0 - 32.0) / 60.0 and lies in [0, 1]. -/
theorem claim_C4_witness :
    ((1 : ℚ)/30 =
        (({ head_angle := 20.0, lift_height := 34.0 } : State).lift_height - 32.0)
          / 60.0) ∧
      (0 ≤ (1 : ℚ)/30 ∧ (1 : ℚ)/30 ≤ 1) := by
  have ht : tick defaultConfig initState (some 't') =
      some ({ head_angle := 20.0, lift_height := 34.0 },
        { cmd_vel := {}, head_pub := none, lift_pub := some (1/30) }) := by
    rw [tick_eq_some defaultConfig initState (some 't') (by decide), dispatch_t]
    norm_num [initState, publishStep, STD_HEAD_ANGLE, STD_LIFT_HEIGHT,
      LIFT_ADJUSTMENT_RATE, MAX_LIFT_HEIGHT, MIN_LIFT_HEIGHT, SUM_LIFT_HEIGHT]
  have h := claim_C4 defaultConfig initState (some 't') _ _ ht
  exact ⟨(h.1 (1/30) rfl).1,
    (h.1 (1/30) rfl).2
      (by norm_num [initState, STD_LIFT_HEIGHT, MIN_LIFT_HEIGHT, MAX_LIFT_HEIGHT])⟩

/-- C5: from any prior state, key `f` sets the head angle to exactly 20.0
and marks the head channel for publishing, and key `g` sets the lift height
to exactly 32.0 and marks the lift channel for publishing. -/
theorem claim_C5 (cfg : Config) (s : State) :
    (∃ out, tick cfg s (some 'f') = some ({ s with head_angle := 20.0 }, out) ∧
      out.head_pub.isSome = true) ∧
    (∃ out, tick cfg s (some 'g') = some ({ s with lift_height := 32.0 }, out) ∧
      out.lift_pub.isSome = true) := by
  constructor
  · exact ⟨publishStep (dispatch cfg s (some 'f')),
      tick_eq_some cfg s (some 'f') (by decide), rfl⟩
  · exact ⟨publishStep (dispatch cfg s (some 'g')),
      tick_eq_some cfg s (some 'g') (by decide), rfl⟩

/-- C6: a tick stops the loop exactly when the key read is the Ctrl-C byte
0x03, and on a Ctrl-C tick the whole remaining run produces no output at
all and leaves the state untouched. -/
theorem claim_C6 :
    (∀ (cfg : Config) (s : State) (key : Option Char),
      tick cfg s key = none ↔ key = some '\x03') ∧
    (∀ (cfg : Config) (s : State) (keys : List (Option Char)),
      run cfg s (some '\x03' :: keys) = (s, [])) := by
  constructor
  · intro cfg s key
    constructor
    · intro h
      by_cases hk : key = some '\x03'
      · exact hk
      · rw [tick_eq_some cfg s key hk] at h
        cases h
    · intro hk
      simp [tick, hk]
  · intro cfg s keys
    exact run_stop cfg s keys

/-- C7: any key outside the ten recognized ones which is not Ctrl-C -
including the no-key case - leaves the state unchanged, publishes nothing
on the head and lift channels, and still publishes an all-zero `cmd_vel`. -/
theorem claim_C7 (cfg : Config) (s : State) (key : Option Char)
    (h1 : key ∉ recognizedKeys) (h2 : key ≠ some '\x03') :
    tick cfg s key =
      some (s, { cmd_vel := { linear_x := 0, angular_z := 0 },
                 head_pub := none, lift_pub := none }) := by
  rw [tick_eq_some cfg s key h2, dispatch_other cfg s key h1]
  rfl

/-- C7 witness: the no-key tick from the initial state keeps the state and
publishes only the zero `cmd_vel`. -/
theorem claim_C7_witness :
    tick defaultConfig initState none =
      some (initState, { cmd_vel := { linear_x := 0, angular_z := 0 },
                         head_pub := none, lift_pub := none }) :=
  claim_C7 defaultConfig initState none (by decide) (by decide)

/-- C9: one `t` press from the default lift height 32.0 gives exactly 34.0
with published value 2.0/60.0, and in general each of the keys `t`, `b`,
`r`, `v` moves its actuator by exactly 2.0 (up for `t` and `r`, down for
`b` and `v`) whenever the result stays inside the legal range. -/
theorem claim_C9 :
    (∀ (cfg : Config) (s : State), s.lift_height = 32.0 →
      ∃ out, tick cfg s (some 't') = some ({ s with lift_height := 34.0 }, out) ∧
        out.lift_pub = some (2.0 / 60.0)) ∧
    (∀ (cfg : Config) (s : State), s.lift_height + 2.0 ≤ MAX_LIFT_HEIGHT →
      (dispatch cfg s (some 't')).state.lift_height = s.lift_height + 2.0) ∧
    (∀ (cfg : Config) (s : State), MIN_LIFT_HEIGHT ≤ s.lift_height - 2.0 →
      (dispatch cfg s (some 'b')).state.lift_height = s.lift_height - 2.0) ∧
    (∀ (cfg : Config) (s : State), s.head_angle + 2.0 ≤ MAX_HEAD_ANGLE →
      (dispatch cfg s (some 'r')).state.head_angle = s.head_angle + 2.0) ∧
    (∀ (cfg : Config) (s : State), MIN_HEAD_ANGLE ≤ s.head_angle - 2.0 →
      (dispatch cfg s (some 'v')).state.head_angle = s.head_angle - 2.0) := by
  refine ⟨?_, ?_, ?_, ?_, ?_⟩
  · intro cfg s hs
    refine ⟨publishStep (dispatch cfg s (some 't')),
      ?_, ?_⟩
    · rw [tick_eq_some cfg s (some 't') (by decide), dispatch_t]
      dsimp only
      rw [hs]
      norm_num [LIFT_ADJUSTMENT_RATE, MAX_LIFT_HEIGHT]
    · rw [dispatch_t]
      simp only [publishStep]
      rw [hs]
      norm_num [LIFT_ADJUSTMENT_RATE, MAX_LIFT_HEIGHT, MIN_LIFT_HEIGHT,
        SUM_LIFT_HEIGHT]
  · intro cfg s h
    rw [dispatch_t]
    dsimp only
    rw [if_neg (not_lt.mpr (by unfold LIFT_ADJUSTMENT_RATE; exact h))]
    norm_num [LIFT_ADJUSTMENT_RATE]
  · intro cfg s h
    rw [dispatch_b]
    dsimp only
    rw [if_neg (not_lt.mpr (by unfold LIFT_ADJUSTMENT_RATE; exact h))]
    norm_num [LIFT_ADJUSTMENT_RATE]
  · intro cfg s h
    rw [dispatch_r]
    dsimp only
    rw [if_neg (not_lt.mpr (by unfold HEAD_ADJUSTMENT_RATE; exact h))]
    norm_num [HEAD_ADJUSTMENT_RATE]
  · intro cfg s h
    rw [dispatch_v]
    dsimp only
    rw [if_neg (not_lt.mpr (by unfold HEAD_ADJUSTMENT_RATE; exact h))]
    norm_num [HEAD_ADJUSTMENT_RATE]

/-- C9 witness: at the initial state (lift 32.0) a `t` tick gives lift 34.0
and publishes 2.0/60.0, and the generic +2.0 step applies there as well. -/
theorem claim_C9_witness :
    (∃ out, tick defaultConfig initState (some 't') =
        some ({ initState with lift_height := 34.0 }, out) ∧
        out.lift_pub = some (2.0 / 60.0)) ∧
    (dispatch defaultConfig initState (some 't')).state.lift_height =
      initState.lift_height + 2.0 :=
  ⟨claim_C9.1 defaultConfig initState
      (by norm_num [initState, STD_LIFT_HEIGHT]),
    claim_C9.2.1 defaultConfig initState
      (by norm_num [initState, STD_LIFT_HEIGHT, MAX_LIFT_HEIGHT])⟩

/-- C10: the lift height is always of the form 32.0 + 2·k with a natural
k ≤ 30, every published lift value is exactly k/30 for such a k, and a `g`
press always publishes exactly 0. -/
theorem claim_C10 :
    (∀ (cfg : Config) (keys : List (Option Char)),
      ∀ s ∈ initState :: statesOf cfg initState keys,
        ∃ k : ℕ, k ≤ 30 ∧ s.lift_height = 32.0 + 2 * k) ∧
    (∀ (cfg : Config) (s : State) (key : Option Char) (s' : State)
        (out : TickOutput) (v : ℚ),
      tick cfg s key = some (s', out) → out.lift_pub = some v →
        liftGrid s → ∃ k : ℕ, k ≤ 30 ∧ v = (k : ℚ) / 30) ∧
    (∀ (cfg : Config) (s : State),
      ∃ out, tick cfg s (some 'g') = some ({ s with lift_height := 32.0 }, out) ∧
        out.lift_pub = some 0) := by
  refine ⟨?_, ?_, ?_⟩
  · intro cfg keys s hs
    rcases List.mem_cons.mp hs with rfl | hs
    · exact initState_liftGrid
    · exact statesOf_inv liftGrid liftGrid_dispatch cfg keys initState
        initState_liftGrid s hs
  · intro cfg s key s' out v ht hv hg
    obtain ⟨h1, h2⟩ := tick_elim cfg s key (s', out) ht
    dsimp only at h1 h2
    subst h1
    subst h2
    unfold publishStep at hv
    dsimp only at hv
    rcases hb : (dispatch cfg s key).lift_changed with _ | _
    · rw [hb] at hv
      simp at hv
    · rw [hb] at hv
      simp only [if_true] at hv
      obtain rfl := Option.some_injective _ hv
      obtain ⟨k, hk, hgrid⟩ := liftGrid_dispatch cfg s key hg
      refine ⟨k, hk, ?_⟩
      rw [hgrid]
      simp only [SUM_LIFT_HEIGHT, MIN_LIFT_HEIGHT, MAX_LIFT_HEIGHT]
      norm_num
      ring
  · intro cfg s
    refine ⟨publishStep (dispatch cfg s (some 'g')),
      tick_eq_some cfg s (some 'g') (by decide), ?_⟩
    rw [dispatch_g]
    simp only [publishStep]
    norm_num [STD_LIFT_HEIGHT, MIN_LIFT_HEIGHT, SUM_LIFT_HEIGHT,
      MAX_LIFT_HEIGHT]

/-- C10 witness: the state reached by one `t` press sits on the grid
(k = 1), and the value published on that tick is 1/30. -/
theorem claim_C10_witness :
    (∃ k : ℕ, k ≤ 30 ∧
      ({ head_angle := 20.0, lift_height := 34.0 } : State).lift_height =
        32.0 + 2 * k) ∧
    (∃ k : ℕ, k ≤ 30 ∧ (1 : ℚ)/30 = (k : ℚ) / 30) := by
  have ht : tick defaultConfig initState (some 't') =
      some ({ head_angle := 20.0, lift_height := 34.0 },
        { cmd_vel := {}, head_pub := none, lift_pub := some (1/30) }) := by
    rw [tick_eq_some defaultConfig initState (some 't') (by decide), dispatch_t]
    norm_num [initState, publishStep, STD_HEAD_ANGLE, STD_LIFT_HEIGHT,
      LIFT_ADJUSTMENT_RATE, MAX_LIFT_HEIGHT, MIN_LIFT_HEIGHT, SUM_LIFT_HEIGHT]
  refine ⟨claim_C10.1 defaultConfig [some 't']
      { head_angle := 20.0, lift_height := 34.0 }
      (by
        rw [statesOf_cons defaultConfig initState (some 't') [] (by decide),
          dispatch_t]
        norm_num [initState, statesOf, STD_HEAD_ANGLE, STD_LIFT_HEIGHT,
          LIFT_ADJUSTMENT_RATE, MAX_LIFT_HEIGHT, List.mem_cons]),
    claim_C10.2.1 defaultConfig initState (some 't') _ _ (1/30) ht rfl
      ⟨0, by omega, by norm_num [initState, STD_LIFT_HEIGHT, MIN_LIFT_HEIGHT]⟩⟩

end CozmoTeleop
